import Mathlib

/-!
Verification of the interview-recorder application (interview_recorder.py)
and its remote transcription worker (handler.py).

The Python source is shallowly embedded: pure computations become Lean
functions over exact arithmetic (Python ints become Int/Nat, the float
seconds and the float constant 327.67 become rationals, where 327.67 is
exactly 32767/100), stateful methods become explicit functions from a
recorder state (plus the inputs the method reads: filesystem contents,
poll responses, subprocess outcomes) to a new state paired with the list
of observable actions the method performs, and raising code is modelled
with explicit outcome data.
-/

namespace InterviewRecorder

/-- Single-quote character as a one-character string, used to build the
worker error message that quotes the key name. -/
def sq : String := String.mk [Char.ofNat 39]

/-! ## Elapsed-time formatting (update_timer, interview_recorder.py lines 630-635)

The source computes
  h, m, s = elapsed // 3600, (elapsed % 3600) // 60, elapsed % 60
and renders the label with the format string "{h:02d}:{m:02d}:{s:02d}".
-/

/-- Python format "{n:02d}" for a nonnegative integer: the decimal digits,
left-padded with one zero when the number has a single digit. -/
def pad2 (n : Nat) : String :=
  if n < 10 then "0" ++ Nat.repr n else Nat.repr n

/-- Timer label computed by update_timer for a nonnegative elapsed
number of seconds. -/
def update_timer (elapsed : Nat) : String :=
  pad2 (elapsed / 3600) ++ ":" ++ pad2 (elapsed % 3600 / 60) ++ ":" ++ pad2 (elapsed % 60)

/-! ## Audio level computation (AudioMeter, interview_recorder.py lines 74-83)

For a chunk of signed 16-bit samples the source computes
  rms = (sum(s*s for s in samples) / len(samples)) ** 0.5
  level = min(100, int(rms / 327.67))
The sum of squares and the length are exact Python integers; 327.67 is
exactly 32767/100, so
  int(rms / 327.67) = floor( sqrt(S / n) * 100 / 32767 )
                    = floor( sqrt( 10000 * S * d ) / d )   with d = n * 32767 ^ 2
                    = Nat.sqrt (10000 * S * d) / d,
which is the executable form used below (the bridge to the real-number
square root is proved in chunkLevel_eq_floor).
-/

/-- Sum of the squares of the samples of a chunk (an exact integer in the
source as well). -/
def sumSquares (samples : List Int) : Nat :=
  (samples.map (fun s => s.natAbs * s.natAbs)).sum

/-- Level value computed by AudioMeter for one chunk of samples:
min(100, int(rms / 327.67)) in exact arithmetic. -/
def chunkLevel (samples : List Int) : Nat :=
  let d := samples.length * (32767 * 32767)
  min 100 (Nat.sqrt (10000 * sumSquares samples * d) / d)

/-- The natural floor of the real square root of a natural number is
Nat.sqrt. -/
theorem natFloor_real_sqrt (m : Nat) : ⌊Real.sqrt (m : ℝ)⌋₊ = Nat.sqrt m := by
  have hs0 : (0:ℝ) ≤ Real.sqrt (m : ℝ) := Real.sqrt_nonneg _
  refine (Nat.floor_eq_iff hs0).mpr ⟨?_, ?_⟩
  · have h1 : ((Nat.sqrt m : ℝ)) ^ 2 ≤ (m : ℝ) := by exact_mod_cast Nat.sqrt_le' m
    have h3 := Real.sqrt_le_sqrt h1
    rwa [Real.sqrt_sq (by positivity)] at h3
  · have h1 : (m : ℝ) < ((Nat.sqrt m : ℝ) + 1) ^ 2 := by
      have h := Nat.lt_succ_sqrt' m
      have h2 : (m : ℝ) < ((Nat.sqrt m).succ : ℝ) ^ 2 := by exact_mod_cast h
      simpa [Nat.succ_eq_add_one] using h2
    have h3 := Real.sqrt_lt_sqrt (by positivity) h1
    rwa [Real.sqrt_sq (by positivity)] at h3

/-- Bridge between the executable level computation and the real-number
reading of the source line min(100, int(rms / 327.67)): for a nonempty
chunk, chunkLevel is the clamp of the floor of rms / (32767/100), where
rms is the real square root of the mean square. -/
theorem chunkLevel_eq_floor (samples : List Int) (h : samples ≠ []) :
    chunkLevel samples =
      min 100 ⌊Real.sqrt ((sumSquares samples : ℝ) / (samples.length : ℝ)) / (32767 / 100)⌋₊ := by
  have hn0 : 0 < samples.length := List.length_pos.mpr h
  have hd0 : 0 < samples.length * (32767 * 32767) := by positivity
  have hdR : (0:ℝ) < ((samples.length * (32767 * 32767) : ℕ) : ℝ) := by exact_mod_cast hd0
  have key : Real.sqrt ((sumSquares samples : ℝ) / (samples.length : ℝ)) / (32767 / 100)
      = Real.sqrt ((10000 * sumSquares samples * (samples.length * (32767 * 32767)) : ℕ) : ℝ)
          / ((samples.length * (32767 * 32767) : ℕ) : ℝ) := by
    have hnR : (0:ℝ) < (samples.length : ℝ) := by exact_mod_cast hn0
    calc Real.sqrt ((sumSquares samples : ℝ) / (samples.length : ℝ)) / (32767 / 100)
        = Real.sqrt ((sumSquares samples : ℝ) / (samples.length : ℝ)) * (100 / 32767) := by
          ring
      _ = Real.sqrt ((sumSquares samples : ℝ) / (samples.length : ℝ))
            * Real.sqrt ((100 / 32767) ^ 2) := by
          rw [Real.sqrt_sq (by norm_num)]
      _ = Real.sqrt (((sumSquares samples : ℝ) / (samples.length : ℝ)) * (100 / 32767) ^ 2) := by
          rw [← Real.sqrt_mul (by positivity)]
      _ = Real.sqrt (((10000 * sumSquares samples * (samples.length * (32767 * 32767)) : ℕ) : ℝ)
            / (((samples.length * (32767 * 32767) : ℕ) : ℝ)) ^ 2) := by
          congr 1
          push_cast
          field_simp
          ring
      _ = Real.sqrt ((10000 * sumSquares samples * (samples.length * (32767 * 32767)) : ℕ) : ℝ)
            / ((samples.length * (32767 * 32767) : ℕ) : ℝ) := by
          rw [Real.sqrt_div (by positivity), Real.sqrt_sq (le_of_lt hdR)]
  rw [key, Nat.floor_div_nat, natFloor_real_sqrt]
  rfl

/-- Sum of squares of a full-scale chunk: every sample at amplitude 32767
(of either sign) contributes exactly 32767 squared. -/
theorem sumSquares_full_scale (samples : List Int)
    (hs : ∀ s ∈ samples, s = 32767 ∨ s = -32767) :
    sumSquares samples = samples.length * (32767 * 32767) := by
  induction samples with
  | nil => rfl
  | cons a l ih =>
    have ha : a.natAbs = 32767 := by
      rcases hs a (List.mem_cons_self a l) with h | h <;> simp [h]
    have hl := ih (fun s hs2 => hs s (List.mem_cons_of_mem a hs2))
    simp only [sumSquares, List.map_cons, List.sum_cons, List.length_cons] at *
    rw [ha, hl]
    ring

/-- Sum of squares of a silent chunk is zero. -/
theorem sumSquares_silence (samples : List Int) (hs : ∀ s ∈ samples, s = 0) :
    sumSquares samples = 0 := by
  apply List.sum_eq_zero
  intro x hx
  rcases List.mem_map.mp hx with ⟨s, hsmem, rfl⟩
  rw [hs s hsmem]
  rfl

/-- C8: for every chunk of signed 16-bit mono PCM samples the computed
level is an integer at most 100 (and at least 0, being a Nat); a chunk of
silence gives level 0; a nonempty full-scale square-wave chunk (every
sample at amplitude 32767) gives exactly 100, never more. -/
theorem audio_level_bounds_and_extremes (samples : List Int) :
    chunkLevel samples ≤ 100
    ∧ ((∀ s ∈ samples, s = 0) → chunkLevel samples = 0)
    ∧ (samples ≠ [] → (∀ s ∈ samples, s = 32767 ∨ s = -32767) →
        chunkLevel samples = 100) := by
  refine ⟨Nat.min_le_left _ _, ?_, ?_⟩
  · intro hs
    simp [chunkLevel, sumSquares_silence samples hs]
  · intro hne hs
    have hn0 : 0 < samples.length := List.length_pos.mpr hne
    have hd0 : 0 < samples.length * (32767 * 32767) := by positivity
    have hsq : 10000 * sumSquares samples * (samples.length * (32767 * 32767))
        = (100 * (samples.length * (32767 * 32767)))
          * (100 * (samples.length * (32767 * 32767))) := by
      rw [sumSquares_full_scale samples hs]
      ring
    simp only [chunkLevel, hsq, Nat.sqrt_eq, Nat.mul_div_cancel _ hd0]
    rfl

/-- Concrete instance for the C8 theorem: a one-period full-scale square
wave of two samples yields level exactly 100. -/
theorem audio_level_bounds_witness :
    (([32767, -32767] : List Int) ≠ []) ∧ chunkLevel [32767, -32767] = 100 :=
  ⟨by decide, (audio_level_bounds_and_extremes [32767, -32767]).2.2 (by decide) (by decide)⟩

/-- C7: for every nonnegative number of elapsed seconds t, the timer label
is HH:MM:SS built from t / 3600, t % 3600 / 60 and t % 60; minutes and
seconds lie in [0,59] and render as exactly two zero-padded digits; the
hours field renders every value below 100 as two digits and every larger
value as its full decimal digits, and the three fields reconstruct t
exactly, so hours grow without bound instead of wrapping or truncating
(witnessed by t = 360000 rendering as 100:00:00). -/
theorem update_timer_format (t : Nat) :
    update_timer t = pad2 (t / 3600) ++ ":" ++ pad2 (t % 3600 / 60) ++ ":" ++ pad2 (t % 60)
    ∧ t % 3600 / 60 < 60
    ∧ t % 60 < 60
    ∧ (∀ n, n < 100 → (pad2 n).length = 2)
    ∧ (∀ n, 100 ≤ n → pad2 n = Nat.repr n)
    ∧ t / 3600 * 3600 + t % 3600 / 60 * 60 + t % 60 = t
    ∧ update_timer 360000 = "100:00:00" := by
  refine ⟨rfl, by omega, by omega, by decide, ?_, by omega, by decide⟩
  intro n hn
  rw [pad2, if_neg (by omega)]

/-- Concrete instances for the C7 theorem: the zero-pad width for a
two-digit field value and the unpadded rendering of a three-digit hours
value, both obtained from the theorem. -/
theorem update_timer_format_witness :
    (59 < 100 ∧ (pad2 59).length = 2)
    ∧ (100 ≤ 360000 / 3600 ∧ pad2 (360000 / 3600) = Nat.repr (360000 / 3600)) :=
  ⟨⟨by decide, (update_timer_format 0).2.2.2.1 59 (by decide)⟩,
   ⟨by decide, (update_timer_format 0).2.2.2.2.1 (360000 / 3600) (by decide)⟩⟩

/-! ## Dialogue formatting (format_dialogue_to_text, interview_recorder.py lines 361-387)

The input is the dialogue payload decoded from the worker response: a
dict that either carries an error string, or carries the keys dialogue,
language and num_speakers with defaults applied through dict.get. The
float second offsets of a turn become exact rationals. Python semantics
used below: x // d is float floor division, x % d is x - d * (x // d),
int(x) truncates toward zero, and "{z:02d}" pads the decimal rendering
of z to at least two characters with a leading zero.
-/

/-- One diarized turn of the dialogue payload; every key is read with
turn.get and can be absent. -/
structure DialogueTurn where
  speaker : Option String
  text : Option String
  start : Option ℚ
  end_ : Option ℚ
  deriving DecidableEq

/-- The decoded worker output: either an error payload or a dialogue
result; every key is read with dict.get and can be absent. -/
structure DialogueResult where
  error : Option String
  dialogue : Option (List DialogueTurn)
  language : Option String
  num_speakers : Option Nat
  deriving DecidableEq

/-- Python float floor division x // d (the result is itself a float). -/
def pyFloorDiv (x d : ℚ) : ℚ := (⌊x / d⌋ : ℚ)

/-- Python float modulo x % d = x - d * (x // d). -/
def pyMod (x d : ℚ) : ℚ := x - d * pyFloorDiv x d

/-- Python int(x): truncation toward zero. -/
def pyInt (x : ℚ) : Int := if x < 0 then -⌊-x⌋ else ⌊x⌋

/-- Python format "{z:02d}": the decimal rendering of z, left-padded
with a zero when it is a single character. -/
def pad2Int (z : Int) : String :=
  if 0 ≤ z ∧ z < 10 then "0" ++ Int.repr z else Int.repr z

/-- Timestamp of one turn, [MM:SS - MM:SS], from the f-string
"[{int(start//60):02d}:{int(start%60):02d} - {int(end//60):02d}:{int(end%60):02d}]". -/
def fmtTimestamp (startSec endSec : ℚ) : String :=
  "[" ++ pad2Int (pyInt (pyFloorDiv startSec 60)) ++ ":" ++ pad2Int (pyInt (pyMod startSec 60))
      ++ " - " ++ pad2Int (pyInt (pyFloorDiv endSec 60)) ++ ":" ++ pad2Int (pyInt (pyMod endSec 60))
      ++ "]"

/-- Python sep.join(parts). -/
def joinSep (sep : String) : List String → String
  | [] => ""
  | [a] => a
  | a :: b :: rest => a ++ sep ++ joinSep sep (b :: rest)

theorem joinSep_cons (sep a : String) (l : List String) (h : l ≠ []) :
    joinSep sep (a :: l) = a ++ sep ++ joinSep sep l := by
  cases l with
  | nil => exact absurd rfl h
  | cons b rest => rfl

/-- The separator line "=" * 60. -/
def eqLine : String := String.mk (List.replicate 60 (Char.ofNat 61))

/-- The three lines appended for one turn of the dialogue: the speaker
label with the timestamp, the text, and a blank separator line. -/
def turnLines (turn : DialogueTurn) : List String :=
  [(turn.speaker.getD "UNKNOWN") ++ " "
      ++ fmtTimestamp (turn.start.getD 0) (turn.end_.getD 0) ++ ":",
   turn.text.getD "",
   ""]

/-- format_dialogue_to_text: the error branch returns a single
error-prefixed string; otherwise two header lines, a separator line, a
blank line, and the three lines of every turn, joined with newlines. -/
def format_dialogue_to_text (r : DialogueResult) : String :=
  match r.error with
  | some e => "ОШИБКА: " ++ e
  | none =>
    let dialogue := r.dialogue.getD []
    let language := r.language.getD "unknown"
    let num_speakers := r.num_speakers.getD 0
    joinSep "\n"
      (["Язык: " ++ language, "Количество спикеров: " ++ Nat.repr num_speakers, eqLine, ""]
        ++ dialogue.flatMap turnLines)

/-- Flooring a rational before dividing by a positive natural number does
not change the floor of the quotient. -/
theorem floor_div_floor (q : ℚ) (d : Nat) (hd : 0 < d) :
    ⌊((⌊q⌋ : ℚ)) / (d : ℚ)⌋ = ⌊q / (d : ℚ)⌋ := by
  have hdq : (0:ℚ) < (d : ℚ) := by exact_mod_cast hd
  apply le_antisymm
  · apply Int.le_floor.mpr
    calc ((⌊(⌊q⌋ : ℚ) / (d : ℚ)⌋ : ℚ)) ≤ (⌊q⌋ : ℚ) / (d : ℚ) := Int.floor_le _
      _ ≤ q / (d : ℚ) := by gcongr; exact Int.floor_le q
  · apply Int.le_floor.mpr
    rw [le_div_iff₀ hdq]
    have h1 : ((⌊q / (d:ℚ)⌋ : ℚ)) * (d:ℚ) ≤ q := by
      rw [← le_div_iff₀ hdq]
      exact Int.floor_le _
    have h2 : (⌊q / (d:ℚ)⌋ * (d:ℤ)) ≤ ⌊q⌋ := Int.le_floor.mpr (by push_cast; exact h1)
    exact_mod_cast h2

/-- Python int() is the identity on values that are already integral. -/
theorem pyInt_intCast (z : Int) : pyInt (z : ℚ) = z := by
  unfold pyInt
  by_cases h : (z : ℚ) < 0
  · rw [if_pos h, ← Int.cast_neg, Int.floor_intCast, neg_neg]
  · rw [if_neg h, Int.floor_intCast]

/-- The minutes field of the timestamp: int(x // 60) is the floor of
x / 60. -/
theorem pyInt_pyFloorDiv_60 (x : ℚ) : pyInt (pyFloorDiv x 60) = ⌊x / 60⌋ := by
  rw [pyFloorDiv, pyInt_intCast]

/-- The seconds field of the timestamp: int(x % 60) depends only on the
floor of x. -/
theorem pyInt_pyMod_60 (x : ℚ) : pyInt (pyMod x 60) = ⌊x⌋ - 60 * ⌊x / 60⌋ := by
  have hmod : pyMod x 60 = x - ((60 * ⌊x / 60⌋ : ℤ) : ℚ) := by
    rw [pyMod, pyFloorDiv]
    push_cast
    ring
  have hge : (0:ℚ) ≤ pyMod x 60 := by
    rw [hmod, sub_nonneg]
    push_cast
    calc (60:ℚ) * (⌊x / 60⌋ : ℚ) ≤ 60 * (x / 60) := by
          gcongr
          exact Int.floor_le _
      _ = x := by ring
  rw [pyInt, if_neg (not_lt.mpr hge), hmod, Int.floor_sub_int, mul_comm]

/-- The rendered timestamp truncates the offsets to whole seconds: it is
unchanged by flooring the start and end offsets. -/
theorem fmtTimestamp_trunc (s e : ℚ) :
    fmtTimestamp s e = fmtTimestamp ((⌊s⌋ : ℚ)) ((⌊e⌋ : ℚ)) := by
  have hdiv : ∀ x : ℚ, pyInt (pyFloorDiv ((⌊x⌋ : ℚ)) 60) = pyInt (pyFloorDiv x 60) := by
    intro x
    rw [pyInt_pyFloorDiv_60, pyInt_pyFloorDiv_60]
    have h := floor_div_floor x 60 (by norm_num)
    push_cast at h
    exact h
  have hmod : ∀ x : ℚ, pyInt (pyMod ((⌊x⌋ : ℚ)) 60) = pyInt (pyMod x 60) := by
    intro x
    rw [pyInt_pyMod_60, pyInt_pyMod_60, Int.floor_intCast]
    have h := floor_div_floor x 60 (by norm_num)
    push_cast at h
    rw [h]
  rw [fmtTimestamp, fmtTimestamp, hdiv s, hmod s, hdiv e, hmod e]

/-- The concrete round-trip payload of the C9 claim. -/
def exampleDialogueResult : DialogueResult :=
  ⟨none, some [⟨some "SPEAKER_00", some "hi", some 0, some 5⟩], some "en", some 2⟩

/-- C9: a dialogue result renders as the header lines followed, for each
turn, by the speaker label with a [MM:SS - MM:SS] timestamp line, the
text line, and a blank separator line; the timestamp truncates the
offsets to whole seconds; and the concrete payload of the claim renders
to a text whose fifth line is the literal SPEAKER_00 [00:00 - 00:05]:
directly followed by the line hi. -/
theorem format_dialogue_structure :
    (∀ (lang : String) (ns : Nat) (turns : List DialogueTurn),
        format_dialogue_to_text ⟨none, some turns, some lang, some ns⟩ =
          joinSep "\n"
            (["Язык: " ++ lang, "Количество спикеров: " ++ Nat.repr ns, eqLine, ""]
              ++ turns.flatMap turnLines))
    ∧ (∀ s e : ℚ, fmtTimestamp s e = fmtTimestamp ((⌊s⌋ : ℚ)) ((⌊e⌋ : ℚ)))
    ∧ format_dialogue_to_text exampleDialogueResult
        = "Язык: en\nКоличество спикеров: 2\n" ++ eqLine
            ++ "\n\nSPEAKER_00 [00:00 - 00:05]:\nhi\n" := by
  refine ⟨fun _ _ _ => rfl, fmtTimestamp_trunc, ?_⟩
  have h1 : pyInt (pyFloorDiv (0:ℚ) 60) = 0 := by
    rw [pyInt_pyFloorDiv_60]
    norm_num
  have h2 : pyInt (pyMod (0:ℚ) 60) = 0 := by
    rw [pyInt_pyMod_60]
    norm_num
  have h50 : ⌊(5:ℚ) / 60⌋ = 0 := by
    rw [Int.floor_eq_zero_iff]
    constructor <;> norm_num
  have h3 : pyInt (pyFloorDiv (5:ℚ) 60) = 0 := by
    rw [pyInt_pyFloorDiv_60, h50]
  have h4 : pyInt (pyMod (5:ℚ) 60) = 5 := by
    rw [pyInt_pyMod_60, h50]
    norm_num
  have hts : fmtTimestamp (0:ℚ) (5:ℚ) = "[00:00 - 00:05]" := by
    rw [fmtTimestamp, h1, h2, h3, h4]
    decide
  have hstep : format_dialogue_to_text exampleDialogueResult
      = joinSep "\n" ["Язык: en", "Количество спикеров: 2", eqLine, "",
          "SPEAKER_00 " ++ fmtTimestamp (0:ℚ) (5:ℚ) ++ ":", "hi", ""] := rfl
  rw [hstep, hts]
  decide

/-- C10 counterexample: an error payload whose service-provided error
string itself embeds a newline renders to a text that contains a newline,
spanning two lines instead of the single error line the claim states. -/
theorem format_dialogue_error_not_single_line :
    Char.ofNat 10 ∈ (format_dialogue_to_text ⟨some "a\nb", none, none, none⟩).data := by
  decide

/-- C10 (amended): the formatter is a total function from well-typed
payloads to text; an input carrying an error field yields exactly the
string ОШИБКА: followed by the error, which is a single line (no newline
in the output) whenever the service-provided error string itself contains
no newline — the only correction: an error string embedding a newline
spreads the error over several lines; an input without an error field
always yields the dialogue text beginning with the language header line. -/
theorem format_dialogue_total (r : DialogueResult) :
    (∀ e, r.error = some e →
        format_dialogue_to_text r = "ОШИБКА: " ++ e
        ∧ (Char.ofNat 10 ∉ e.data →
            Char.ofNat 10 ∉ (format_dialogue_to_text r).data))
    ∧ (r.error = none → ∃ rest, format_dialogue_to_text r = "Язык: " ++ rest) := by
  constructor
  · intro e he
    have hfmt : format_dialogue_to_text r = "ОШИБКА: " ++ e := by
      simp only [format_dialogue_to_text, he]
    refine ⟨hfmt, fun hne => ?_⟩
    rw [hfmt, String.data_append, List.mem_append]
    rintro (h | h)
    · exact absurd h (by decide)
    · exact hne h
  · intro he
    simp only [format_dialogue_to_text, he]
    refine ⟨(r.language.getD "unknown")
      ++ "\n" ++ joinSep "\n" (["Количество спикеров: " ++ Nat.repr (r.num_speakers.getD 0),
          eqLine, ""] ++ (r.dialogue.getD []).flatMap turnLines), ?_⟩
    rw [List.cons_append, joinSep_cons _ _ _ (by simp)]
    simp [String.append_assoc]

/-- Concrete instances for the C10 theorem: a newline-free error payload
renders as the single error line, and an empty payload without an error
field renders as header text. -/
theorem format_dialogue_total_witness :
    format_dialogue_to_text ⟨some "boom", none, none, none⟩ = "ОШИБКА: " ++ "boom"
    ∧ Char.ofNat 10 ∉ (format_dialogue_to_text ⟨some "boom", none, none, none⟩).data
    ∧ ∃ rest, format_dialogue_to_text ⟨none, none, none, none⟩ = "Язык: " ++ rest :=
  ⟨((format_dialogue_total ⟨some "boom", none, none, none⟩).1 "boom" rfl).1,
   ((format_dialogue_total ⟨some "boom", none, none, none⟩).1 "boom" rfl).2 (by decide),
   (format_dialogue_total ⟨none, none, none, none⟩).2 rfl⟩

/-! ## Status polling (_poll_runpod_result, interview_recorder.py lines 455-489)

The loop keeps an attempt counter starting at 0 against max_attempts =
120. Every iteration issues one HTTP GET of the status endpoint; on
status COMPLETED it returns the embedded output, on FAILED it raises
ValueError carrying the embedded error (default Unknown error), on
IN_QUEUE or IN_PROGRESS it increments the counter, sleeps 5 seconds and
loops, and on any other status it raises ValueError with the unknown
status; a requests-level failure raises ValueError immediately. When the
counter reaches 120 the loop exits and TimeoutError is raised. The
responses the service would give to the successive requests are an input
of the model; the trace of HTTP GETs and 5-second sleeps is returned next
to the result. -/

/-- Decoded body of one status response; both payload keys are optional. -/
structure StatusData where
  status : Option String
  output : Option DialogueResult
  error : Option String
  deriving DecidableEq

/-- One poll round trip: a decoded body or a requests-level failure
(connection error or non-2xx). -/
inductive PollResponse where
  | ok (data : StatusData)
  | netError (msg : String)
  deriving DecidableEq

/-- Terminal outcome of the poll loop. -/
inductive PollResult where
  | completed (output : Option DialogueResult)
  | jobFailed (errMsg : String)
  | unknownStatus (status : Option String)
  | requestFailed (msg : String)
  | remoteTimeout
  deriving DecidableEq

/-- Observable step of the poll loop. -/
inductive PollEvent where
  | httpGet
  | sleep5
  deriving DecidableEq

/-- Dispatch on the status field of one decoded response: none means the
loop continues polling. -/
def pollStep (sd : StatusData) : Option PollResult :=
  if sd.status = some "COMPLETED" then some (.completed sd.output)
  else if sd.status = some "FAILED" then some (.jobFailed (sd.error.getD "Unknown error"))
  else if sd.status = some "IN_QUEUE" ∨ sd.status = some "IN_PROGRESS" then none
  else some (.unknownStatus sd.status)

/-- The poll loop from attempt k with the given remaining fuel
(max_attempts minus the attempt counter); responses i is what the
service answers to the i-th HTTP GET. -/
def pollAux (responses : Nat → PollResponse) (k fuel : Nat) : PollResult × List PollEvent :=
  match fuel with
  | 0 => (.remoteTimeout, [])
  | fuel' + 1 =>
    match responses k with
    | .netError msg => (.requestFailed msg, [.httpGet])
    | .ok sd =>
      match pollStep sd with
      | some r => (r, [.httpGet])
      | none =>
        let rest := pollAux responses (k + 1) fuel'
        (rest.1, .httpGet :: .sleep5 :: rest.2)

/-- max_attempts = 120 from the source. -/
def max_attempts : Nat := 120

/-- The poll loop as entered by _poll_runpod_result. -/
def pollRunpodResult (responses : Nat → PollResponse) : PollResult × List PollEvent :=
  pollAux responses 0 max_attempts

/-- A response whose status is IN_QUEUE or IN_PROGRESS makes the loop
continue. -/
theorem pollStep_pending (sd : StatusData)
    (h : sd.status = some "IN_QUEUE" ∨ sd.status = some "IN_PROGRESS") :
    pollStep sd = none := by
  obtain ⟨s, o, e⟩ := sd
  rcases h with h | h <;> simp_all [pollStep]

/-- With only pending responses the loop spends all its fuel, issuing one
HTTP GET and one 5-second sleep per unit of fuel, and times out. -/
theorem pollAux_all_pending (responses : Nat → PollResponse)
    (h : ∀ i, ∃ sd, responses i = .ok sd
        ∧ (sd.status = some "IN_QUEUE" ∨ sd.status = some "IN_PROGRESS")) :
    ∀ fuel k, pollAux responses k fuel
      = (.remoteTimeout, (List.replicate fuel ([PollEvent.httpGet, PollEvent.sleep5])).flatten) := by
  intro fuel
  induction fuel with
  | zero => intro k; rfl
  | succ fuel' ih =>
    intro k
    obtain ⟨sd, hresp, hst⟩ := h k
    rw [pollAux, hresp]
    dsimp only
    rw [pollStep_pending sd hst]
    dsimp only
    rw [ih (k + 1)]
    rfl

set_option maxRecDepth 8000 in
/-- C3: for every sequence of poll responses whose status never reaches a
terminal value (always IN_QUEUE or IN_PROGRESS), the poll loop issues
exactly 120 status requests, each followed by one 5-second sleep (600
seconds of spacing in total), and terminates with the remote-timeout
error. -/
theorem poll_timeout_after_120 (responses : Nat → PollResponse)
    (h : ∀ i, ∃ sd, responses i = .ok sd
        ∧ (sd.status = some "IN_QUEUE" ∨ sd.status = some "IN_PROGRESS")) :
    pollRunpodResult responses
      = (.remoteTimeout, (List.replicate 120 ([PollEvent.httpGet, PollEvent.sleep5])).flatten)
    ∧ (pollRunpodResult responses).2.count PollEvent.httpGet = 120
    ∧ (pollRunpodResult responses).2.count PollEvent.sleep5 * 5 = 600 := by
  have h1 := pollAux_all_pending responses h 120 0
  have h2 : pollRunpodResult responses
      = (.remoteTimeout, (List.replicate 120 ([PollEvent.httpGet, PollEvent.sleep5])).flatten) := h1
  refine ⟨h2, ?_, ?_⟩ <;> rw [h2] <;> decide

/-- Concrete instance for the C3 theorem: a service that always answers
IN_QUEUE leads to a timeout after 120 requests. -/
theorem poll_timeout_witness :
    (∀ i : Nat, ∃ sd, (fun _ => PollResponse.ok ⟨some "IN_QUEUE", none, none⟩) i = .ok sd
        ∧ (sd.status = some "IN_QUEUE" ∨ sd.status = some "IN_PROGRESS"))
    ∧ (pollRunpodResult (fun _ => PollResponse.ok ⟨some "IN_QUEUE", none, none⟩)).1
        = .remoteTimeout :=
  ⟨fun _ => ⟨⟨some "IN_QUEUE", none, none⟩, rfl, Or.inl rfl⟩,
   by rw [(poll_timeout_after_120 (fun _ => PollResponse.ok ⟨some "IN_QUEUE", none, none⟩)
        (fun _ => ⟨⟨some "IN_QUEUE", none, none⟩, rfl, Or.inl rfl⟩)).1]⟩

/-- C4: the poller dispatches on the status field: COMPLETED returns the
embedded output, FAILED surfaces the job failure carrying the
service-provided error string (with the Unknown error default), IN_QUEUE
and IN_PROGRESS continue polling, any other status (a different string,
or an absent field) yields the unknown-status error; in particular a
first response of status FAILED with error oom makes the loop surface the
job failure carrying oom. -/
theorem poll_status_dispatch :
    (∀ sd : StatusData, sd.status = some "COMPLETED" →
        pollStep sd = some (.completed sd.output))
    ∧ (∀ sd : StatusData, sd.status = some "FAILED" →
        pollStep sd = some (.jobFailed (sd.error.getD "Unknown error")))
    ∧ (∀ sd : StatusData,
        sd.status = some "IN_QUEUE" ∨ sd.status = some "IN_PROGRESS" → pollStep sd = none)
    ∧ (∀ sd : StatusData, sd.status ≠ some "COMPLETED" → sd.status ≠ some "FAILED" →
        sd.status ≠ some "IN_QUEUE" → sd.status ≠ some "IN_PROGRESS" →
        pollStep sd = some (.unknownStatus sd.status))
    ∧ (∀ responses : Nat → PollResponse,
        responses 0 = .ok ⟨some "FAILED", none, some "oom"⟩ →
        (pollRunpodResult responses).1 = .jobFailed "oom") := by
  refine ⟨?_, ?_, pollStep_pending, ?_, ?_⟩
  · intro sd h
    simp [pollStep, h]
  · intro sd h
    simp [pollStep, h]
  · intro sd h1 h2 h3 h4
    simp [pollStep, h1, h2, h3, h4]
  · intro responses h
    have hstep : pollRunpodResult responses = pollAux responses 0 (119 + 1) := rfl
    rw [hstep, pollAux, h]
    rfl

/-- Concrete instances for the C4 theorem: one response per branch of the
dispatch, including the FAILED response carrying oom. -/
theorem poll_status_dispatch_witness :
    pollStep ⟨some "COMPLETED", none, none⟩ = some (.completed none)
    ∧ pollStep ⟨some "FAILED", none, some "oom"⟩ = some (.jobFailed "oom")
    ∧ pollStep ⟨some "IN_PROGRESS", none, none⟩ = none
    ∧ pollStep ⟨some "CANCELLED", none, none⟩ = some (.unknownStatus (some "CANCELLED"))
    ∧ (pollRunpodResult (fun _ => PollResponse.ok ⟨some "FAILED", none, some "oom"⟩)).1
        = .jobFailed "oom" :=
  ⟨poll_status_dispatch.1 ⟨some "COMPLETED", none, none⟩ rfl,
   poll_status_dispatch.2.1 ⟨some "FAILED", none, some "oom"⟩ rfl,
   poll_status_dispatch.2.2.1 ⟨some "IN_PROGRESS", none, none⟩ (Or.inr rfl),
   poll_status_dispatch.2.2.2.1 ⟨some "CANCELLED", none, none⟩
     (by decide) (by decide) (by decide) (by decide),
   poll_status_dispatch.2.2.2.2 (fun _ => PollResponse.ok ⟨some "FAILED", none, some "oom"⟩) rfl⟩

/-! ## Recorder state, stop_recording and the transcription dispatch
(interview_recorder.py lines 306-359 and 491-628)

The mutable attributes the claims depend on become a state record; a
method becomes a function from the state (and the inputs it reads:
the sizes of the files on disk, the picked path of the file dialog, the
outcome of the delegated body) to the new state and the list of
observable actions, in the order the source performs them. The boolean
truthiness tests of the source (on self.process, self.meter,
self.output_file, the picked path) are modelled explicitly. -/

/-- Observable action of a recorder method. -/
inductive Action where
  | sigintWait
  | setStatus (msg : String)
  | setFileLabel (msg : String)
  | startTranscribeThread (path : String)
  | busyWarning
  | removeFile (path : String)
  | setBusy
  | clearBusy
  | disableRecordBtn
  | enableRecordBtn
  | disableTranscribeBtn
  | enableTranscribeBtn
  | showErrorBox (msg : String)
  | saveTranscript (path : String)
  deriving DecidableEq

/-- The mutable attributes of InterviewRecorder the claims depend on. -/
structure RecorderState where
  recording : Bool
  transcribing : Bool
  processActive : Bool
  meterActive : Bool
  output_file : Option String
  transcribe_var : Bool
  keep_audio_var : Bool
  use_server_var : Bool
  deriving DecidableEq

/-- Status text set when the output file is missing after a stop. -/
def recordingFailedMsg : String := "❌ Ошибка записи"

/-- stop_recording: stop the meter, send SIGINT to the encoder and block
on wait(), leave the Recording state, then check that the output file is
set and exists (its size is only read for the log line, never checked),
and either hand the file to a transcription thread or finish, removing
the audio when neither keeping nor transcribing it. -/
def stop_recording (st : RecorderState) (fileSize : String → Option Nat) :
    RecorderState × List Action :=
  let st1 := { st with meterActive := false }
  let waitActs := if st1.processActive then [Action.sigintWait] else []
  let st2 := { st1 with processActive := false }
  let st3 := { st2 with recording := false }
  match st3.output_file with
  | none => (st3, waitActs ++ [Action.setStatus recordingFailedMsg])
  | some f =>
    if f = "" ∨ fileSize f = none then
      (st3, waitActs ++ [Action.setStatus recordingFailedMsg])
    else
      let tail :=
        (if st3.transcribe_var then [Action.startTranscribeThread f]
         else [Action.setStatus "✅ Готово!", Action.setFileLabel f]) ++
        (if st3.keep_audio_var = false ∧ st3.transcribe_var = false
         then [Action.removeFile f] else [])
      (st3, waitActs ++ tail)

/-- transcribe_existing_file: reject with the busy warning while a
transcription is in flight; otherwise open the file dialog (the picked
path is an input; the empty string models a cancelled dialog) and hand
the picked file to a transcription thread. -/
def transcribe_existing_file (st : RecorderState) (picked : String) :
    RecorderState × List Action :=
  if st.transcribing then (st, [Action.busyWarning])
  else if picked = "" then (st, [])
  else (st, [Action.startTranscribeThread picked])

/-- Outcome of the body of the server-path transcription: the decoded
result, or the message of the exception the body raised (any raise point:
missing credential, request failure, timeout, polling error, file I/O). -/
inductive ServerOutcome where
  | ok (result : DialogueResult)
  | raises (msg : String)
  deriving DecidableEq

/-- Outcome of the body of the local-path transcription: a finished
whisper run (with or without the expected transcript file), a missing
whisper binary, or any other raised exception. -/
inductive LocalOutcome where
  | ok (txtExists : Bool)
  | whisperMissing
  | raises (msg : String)
  deriving DecidableEq

/-- Python filepath.rsplit(".", 1)[0]: everything before the last dot, or
the whole path when it has no dot. -/
def stripLastExt (path : String) : String :=
  let parts := path.splitOn "."
  if parts.length ≤ 1 then path else joinSep "." parts.dropLast

/-- The actions of the finally block shared by both transcription paths:
clear the busy flag, then re-enable both buttons. -/
def finallyActs : List Action :=
  [Action.clearBusy, Action.enableRecordBtn, Action.enableTranscribeBtn]

/-- _transcribe_on_server_wrapper: run the server transcription body,
save and announce the transcript on success, report any exception, and in
all cases run the finally block that clears the busy flag and re-enables
the controls. -/
def _transcribe_on_server_wrapper (st : RecorderState) (filepath : String)
    (outcome : ServerOutcome) : RecorderState × List Action :=
  let bodyActs :=
    match outcome with
    | .ok result =>
      let txt := stripLastExt filepath ++ ".txt"
      [Action.saveTranscript txt,
       Action.setStatus ("✅ Транскрипция завершена ("
         ++ Nat.repr (result.num_speakers.getD 0) ++ " спикеров)"),
       Action.setFileLabel txt]
      ++ (if st.keep_audio_var = false ∧ st.output_file = some filepath
          then [Action.removeFile filepath] else [])
    | .raises msg =>
      [Action.setStatus ("❌ Ошибка: " ++ msg.take 30), Action.showErrorBox msg]
  ({ st with transcribing := false }, bodyActs ++ finallyActs)

/-- _transcribe_locally: run whisper, announce the transcript when its
file appeared and report the soft failure when it did not, report a
missing whisper binary or any other exception, and in all cases run the
finally block that clears the busy flag and re-enables the controls. -/
def _transcribe_locally (st : RecorderState) (filepath : String)
    (outcome : LocalOutcome) : RecorderState × List Action :=
  let bodyActs :=
    match outcome with
    | .ok txtExists =>
      let txt := stripLastExt filepath ++ ".txt"
      if txtExists then
        [Action.setStatus "✅ Транскрипция завершена", Action.setFileLabel txt]
        ++ (if st.keep_audio_var = false ∧ st.output_file = some filepath
            then [Action.removeFile filepath] else [])
      else [Action.setStatus "⚠️ Транскрипция не удалась"]
    | .whisperMissing =>
      [Action.showErrorBox "Whisper не найден", Action.setStatus "❌ Whisper не найден"]
    | .raises msg => [Action.setStatus ("❌ Ошибка: " ++ msg.take 30)]
  ({ st with transcribing := false }, bodyActs ++ finallyActs)

/-- transcribe_file: set the busy flag first, disable the controls, then
delegate to the server or the local path according to the mode flag. The
outcome of whichever delegated body runs is an input. -/
def transcribe_file (st : RecorderState) (filepath : String)
    (so : ServerOutcome) (lo : LocalOutcome) : RecorderState × List Action :=
  let st1 := { st with transcribing := true }
  let pre := [Action.setBusy, Action.disableRecordBtn, Action.disableTranscribeBtn,
              Action.setStatus "⏳ Транскрипция..."]
  if st1.use_server_var then
    let r := _transcribe_on_server_wrapper st1 filepath so
    (r.1, pre ++ r.2)
  else
    let r := _transcribe_locally st1 filepath lo
    (r.1, pre ++ r.2)

/-- Every exit of transcribe_file leaves the busy flag cleared. -/
theorem transcribe_file_clears (st : RecorderState) (filepath : String)
    (so : ServerOutcome) (lo : LocalOutcome) :
    (transcribe_file st filepath so lo).1.transcribing = false := by
  cases so <;> cases lo <;>
    simp [transcribe_file, _transcribe_on_server_wrapper, _transcribe_locally] <;>
    split_ifs <;> rfl

/-- C6: on every transcription dispatch the busy flag is set as the very
first step, before any delegation; whatever the delegated body does —
success, handled failure (missing recognizer, missing transcript,
reported exception) or any raised exception — the flag is set exactly
once and cleared exactly once, the final state is not busy, and the
completion path re-enables both controls. -/
theorem busy_flag_discipline (st : RecorderState) (filepath : String)
    (so : ServerOutcome) (lo : LocalOutcome) :
    ((transcribe_file st filepath so lo).2.head? = some Action.setBusy)
    ∧ (transcribe_file st filepath so lo).2.count Action.setBusy = 1
    ∧ (transcribe_file st filepath so lo).2.count Action.clearBusy = 1
    ∧ (transcribe_file st filepath so lo).1.transcribing = false
    ∧ Action.enableRecordBtn ∈ (transcribe_file st filepath so lo).2
    ∧ Action.enableTranscribeBtn ∈ (transcribe_file st filepath so lo).2 := by
  refine ⟨?_, ?_, ?_, transcribe_file_clears st filepath so lo, ?_, ?_⟩ <;>
  · cases so <;> cases lo <;>
      simp [transcribe_file, _transcribe_on_server_wrapper, _transcribe_locally,
        finallyActs, List.count_append, List.count_cons] <;>
      split_ifs <;>
      simp [List.count_append, List.count_cons]

/-- C5 counterexample: in a state whose busy flag is set, stopping a
recording with the transcribe option on starts a second transcription
thread and raises no busy rejection: the stop_recording entry point never
consults the busy flag. -/
theorem busy_not_checked_on_stop :
    ((⟨true, true, true, true, some "rec.mp3", true, true, false⟩ : RecorderState).transcribing
        = true)
    ∧ (stop_recording ⟨true, true, true, true, some "rec.mp3", true, true, false⟩
        (fun f => if f = "rec.mp3" then some 5000000 else none)).2
      = [Action.sigintWait, Action.startTranscribeThread "rec.mp3"]
    ∧ Action.busyWarning
        ∉ (stop_recording ⟨true, true, true, true, some "rec.mp3", true, true, false⟩
            (fun f => if f = "rec.mp3" then some 5000000 else none)).2 := by
  refine ⟨rfl, by decide, by decide⟩

/-- C5 (amended): the transcribe-file entry point rejects a second
invocation synchronously with the busy warning, leaving the state
unchanged and queueing nothing, while the busy flag is set, and accepts a
request as soon as the completion path of a dispatch has cleared the flag;
the stop-recording entry point, however, dispatches without consulting
the busy flag (see the counterexample). -/
theorem transcribe_busy_rejection (st : RecorderState) (picked filepath : String)
    (so : ServerOutcome) (lo : LocalOutcome) :
    (st.transcribing = true → transcribe_existing_file st picked = (st, [Action.busyWarning]))
    ∧ (st.transcribing = false → picked ≠ "" →
        transcribe_existing_file st picked = (st, [Action.startTranscribeThread picked]))
    ∧ (picked ≠ "" →
        transcribe_existing_file (transcribe_file st filepath so lo).1 picked
          = ((transcribe_file st filepath so lo).1, [Action.startTranscribeThread picked])) := by
  refine ⟨?_, ?_, ?_⟩
  · intro h
    simp [transcribe_existing_file, h]
  · intro h hp
    simp [transcribe_existing_file, h, hp]
  · intro hp
    simp [transcribe_existing_file, transcribe_file_clears st filepath so lo, hp]

/-- Concrete instances for the C5 theorem: a busy state rejects with the
warning, an idle state accepts the picked file. -/
theorem transcribe_busy_rejection_witness :
    transcribe_existing_file ⟨false, true, false, false, none, true, true, false⟩ "x.mp3"
      = (⟨false, true, false, false, none, true, true, false⟩, [Action.busyWarning])
    ∧ transcribe_existing_file ⟨false, false, false, false, none, true, true, false⟩ "x.mp3"
      = (⟨false, false, false, false, none, true, true, false⟩,
          [Action.startTranscribeThread "x.mp3"]) :=
  ⟨(transcribe_busy_rejection ⟨false, true, false, false, none, true, true, false⟩
      "x.mp3" "y" (.raises "e") (.raises "e")).1 rfl,
   (transcribe_busy_rejection ⟨false, false, false, false, none, true, true, false⟩
      "x.mp3" "y" (.raises "e") (.raises "e")).2.1 rfl (by decide)⟩

/-- C1 counterexample: a stop whose output file exists with size zero is
not rejected: the transcription thread is started and no recording
failure is reported, because the source only tests Path(...).exists() and
never the size. -/
theorem zero_length_file_not_rejected :
    ((fun f => if f = "rec.mp3" then some 0 else none) : String → Option Nat) "rec.mp3"
        = some 0
    ∧ (stop_recording ⟨true, false, true, true, some "rec.mp3", true, true, false⟩
        (fun f => if f = "rec.mp3" then some 0 else none)).2
      = [Action.sigintWait, Action.startTranscribeThread "rec.mp3"]
    ∧ Action.setStatus recordingFailedMsg
        ∉ (stop_recording ⟨true, false, true, true, some "rec.mp3", true, true, false⟩
            (fun f => if f = "rec.mp3" then some 0 else none)).2 := by
  refine ⟨rfl, by decide, by decide⟩

/-- C1 (amended): after a recording has started, stop() first blocks on
the encoder wait, then verifies the output file path is set and the file
exists: a missing file reports the recording failure and starts no
transcription; an existing file of any size — zero-length included —
passes the verification, and the transcription thread is started whenever
the transcribe option is set; the method always returns with the
Recording state left. -/
theorem stop_recording_checks (st : RecorderState) (fileSize : String → Option Nat)
    (f : String) (hp : st.processActive = true) (hf : st.output_file = some f)
    (hne : f ≠ "") :
    ((stop_recording st fileSize).2.head? = some Action.sigintWait)
    ∧ (fileSize f = none →
        Action.setStatus recordingFailedMsg ∈ (stop_recording st fileSize).2
        ∧ ∀ p, Action.startTranscribeThread p ∉ (stop_recording st fileSize).2)
    ∧ (∀ sz, fileSize f = some sz → st.transcribe_var = true →
        Action.startTranscribeThread f ∈ (stop_recording st fileSize).2)
    ∧ (stop_recording st fileSize).1.recording = false := by
  refine ⟨?_, ?_, ?_, ?_⟩
  · simp only [stop_recording, hf, hp]
    split_ifs <;> rfl
  · intro hmiss
    simp [stop_recording, hf, hp, hmiss, hne]
  · intro sz hsz htv
    simp [stop_recording, hf, hp, hsz, hne, htv]
  · simp only [stop_recording, hf]
    split_ifs <;> rfl

/-- Concrete instance for the C1 theorem: a zero-length output file
passes the existence check and transcription starts. -/
theorem stop_recording_checks_witness :
    Action.startTranscribeThread "rec.mp3"
      ∈ (stop_recording ⟨true, false, true, true, some "rec.mp3", true, true, false⟩
          (fun f => if f = "rec.mp3" then some 0 else none)).2 :=
  (stop_recording_checks ⟨true, false, true, true, some "rec.mp3", true, true, false⟩
      (fun f => if f = "rec.mp3" then some 0 else none) "rec.mp3" rfl rfl (by decide)).2.2.1
    0 (by decide) rfl

/-! ## Remote worker handler (handler.py lines 72-127) and the client
payload (interview_recorder.py lines 409-415)

The job input is a JSON object, modelled as an association list from key
to string value. The handler reads audio_url with dict.get and returns
the error object when the key is absent or its value falsy; only
otherwise does it download the audio and run the transcription pipeline,
modelled by the transcription constructor. The client builds its payload
with the keys audio_base64, language and format only. -/

/-- dict.get on an association-list object. -/
def lookupKey (key : String) (input : List (String × String)) : Option String :=
  (input.find? (fun kv => kv.1 == key)).map (fun kv => kv.2)

/-- What the handler returns: the error object, or the result of the
download-and-transcribe pipeline on the given audio url. -/
inductive HandlerResult where
  | errorResult (msg : String)
  | transcription (audio_url : String)
  deriving DecidableEq

/-- The error message of the handler; sq is the single-quote character,
so this is the exact source string quoting the audio_url key. -/
def missingAudioUrlMsg : String := "Missing " ++ sq ++ "audio_url" ++ sq ++ " in input"

/-- handler: return the error object unless a non-empty audio_url is
present; otherwise proceed to the transcription pipeline. -/
def handler (job_input : List (String × String)) : HandlerResult :=
  match lookupKey "audio_url" job_input with
  | none => .errorResult missingAudioUrlMsg
  | some url => if url = "" then .errorResult missingAudioUrlMsg else .transcription url

/-- The input object of the payload the client builds in
transcribe_on_server: audio_base64, language and format only. -/
def clientJobInput (audio_base64 lang : String) : List (String × String) :=
  [("audio_base64", audio_base64), ("language", lang), ("format", "dialogue")]

/-- C2: every job input without an audio_url key makes the handler return
the error object carrying exactly the message Missing (quote)audio_url
(quote) in input, and the transcription pipeline is not reached — the
handler only ever transcribes when a non-empty audio_url was present; the
payload the client builds carries no audio_url key, so it is always
answered by that error object. -/
theorem handler_missing_audio_url :
    (∀ input : List (String × String), lookupKey "audio_url" input = none →
        handler input = .errorResult missingAudioUrlMsg)
    ∧ (∀ b64 lang : String, lookupKey "audio_url" (clientJobInput b64 lang) = none
        ∧ handler (clientJobInput b64 lang) = .errorResult missingAudioUrlMsg)
    ∧ (∀ input url, handler input = .transcription url →
        lookupKey "audio_url" input = some url ∧ url ≠ "") := by
  refine ⟨?_, ?_, ?_⟩
  · intro input h
    simp [handler, h]
  · intro b64 lang
    exact ⟨rfl, rfl⟩
  · intro input url h
    rw [handler] at h
    rcases hl : lookupKey "audio_url" input with _ | v <;> rw [hl] at h <;> dsimp only at h
    · exact absurd h (by simp)
    · by_cases hv : v = ""
      · rw [if_pos hv] at h
        exact absurd h (by simp)
      · rw [if_neg hv] at h
        cases h
        exact ⟨rfl, hv⟩

/-- Concrete instance for the C2 theorem: the empty job input and one
concrete client payload. -/
theorem handler_missing_audio_url_witness :
    lookupKey "audio_url" ([] : List (String × String)) = none
    ∧ handler [] = .errorResult missingAudioUrlMsg
    ∧ handler (clientJobInput "QUJD" "ru") = .errorResult missingAudioUrlMsg :=
  ⟨rfl, handler_missing_audio_url.1 [] rfl,
   (handler_missing_audio_url.2.1 "QUJD" "ru").2⟩

end InterviewRecorder
